import Mathlib

/-!
Shallow embedding of the AppPilot document converter
(src/services/geminiService.ts and src/utils/fileHelpers.ts).

JavaScript numbers are modelled by `JSNum` (finite rationals, the two
infinities, and NaN) with IEEE-style comparison semantics: NaN compares
false against everything, subtraction and multiplication propagate NaN,
and the truthiness rules of `||` treat NaN and 0 as falsy.  Strings are
Lean `String`s (the source only manipulates them with concatenation,
`trim`, `startsWith`/`endsWith`, all of which agree with JS on the ASCII
texts involved).  Byte buffers (the MOBI encoder) are modelled as
functions `Nat → Nat` written to by big-endian stores, exactly mirroring
the `DataView` calls of the source.
-/

/-- A JavaScript number: NaN, an infinity (`inf true` is `+∞`, `inf false`
is `−∞`), or a finite rational. -/
inductive JSNum where
  | nan : JSNum
  | inf : Bool → JSNum
  | fin : ℚ → JSNum
deriving DecidableEq, Repr

namespace JSNum

/-- JS subtraction `a - b` with NaN/Infinity propagation. -/
def sub : JSNum → JSNum → JSNum
  | nan, _ => nan
  | _, nan => nan
  | inf a, inf b => if a = b then nan else inf a
  | inf a, fin _ => inf a
  | fin _, inf b => inf (!b)
  | fin p, fin q => fin (p - q)

/-- JS `Math.abs`. -/
def abs : JSNum → JSNum
  | nan => nan
  | inf _ => inf true
  | fin q => fin |q|

/-- JS multiplication with NaN/Infinity propagation (`∞ × 0 = NaN`). -/
def mul : JSNum → JSNum → JSNum
  | nan, _ => nan
  | _, nan => nan
  | inf a, inf b => inf (a == b)
  | inf a, fin q => if q = 0 then nan else inf (a == decide (0 < q))
  | fin q, inf a => if q = 0 then nan else inf (a == decide (0 < q))
  | fin p, fin q => fin (p * q)

/-- JS `>` comparison: false whenever either side is NaN. -/
def gt : JSNum → JSNum → Bool
  | nan, _ => false
  | _, nan => false
  | inf a, inf b => a && !b
  | inf a, fin _ => a
  | fin _, inf b => !b
  | fin p, fin q => decide (q < p)

/-- JS strict equality `===` on numbers: false whenever either side is NaN. -/
def seq : JSNum → JSNum → Bool
  | nan, _ => false
  | _, nan => false
  | inf a, inf b => a == b
  | fin p, fin q => p == q
  | _, _ => false

/-- JS truthiness of a number: `0` and `NaN` are falsy. -/
def falsy : JSNum → Bool
  | nan => true
  | inf _ => false
  | fin q => q == 0

/-- Whether a JS comparator result counts as "less than zero" for
`Array.prototype.sort`; a NaN comparator value is coerced to `+0`. -/
def ltZero : JSNum → Bool
  | nan => false
  | inf b => !b
  | fin q => decide (q < 0)

end JSNum

/-! ## JS string primitives

The string operations the source uses (`trim`, `endsWith(" ")`,
`startsWith(" ")`, `toLowerCase`, `endsWith(suffix)`) are modelled by
structural recursion over the character list of a `String`, following the
ECMAScript definitions. -/

/-- Whether `needle` is a prefix of `hay` (character lists). -/
def startsList : List Char → List Char → Bool
  | [], _ => true
  | _ :: _, [] => false
  | a :: as, b :: bs => a == b && startsList as bs

/-- The characters removed by `String.prototype.trim`: ASCII whitespace,
NBSP, BOM, and the line/paragraph separators. -/
def jsIsWs (c : Char) : Bool :=
  c == ' ' || c == '\t' || c == '\n' || c == '\r'
    || c == Char.ofNat 11 || c == Char.ofNat 12
    || c == Char.ofNat 160 || c == Char.ofNat 65279
    || c == Char.ofNat 8232 || c == Char.ofNat 8233

/-- `s.trim()`: drop leading and trailing JS whitespace. -/
def jsTrim (s : String) : String :=
  ⟨((s.data.dropWhile jsIsWs).reverse.dropWhile jsIsWs).reverse⟩

/-- `s.startsWith(pre)`. -/
def jsStartsWith (s pre : String) : Bool := startsList pre.data s.data

/-- `s.endsWith(suf)`. -/
def jsEndsWith (s suf : String) : Bool :=
  startsList suf.data.reverse s.data.reverse

/-- `s.toLowerCase()` (character-wise lowering suffices for the file names
and media types involved). -/
def jsToLower (s : String) : String := ⟨s.data.map Char.toLower⟩

/-! ## Text Reconstruction Engine (geminiService.ts, PDF branch) -/

/-- One mapped text item of the PDF branch:
`{ str, y: transform[5], x: transform[4], height: item.height || 10 }`. -/
structure TextItem where
  str : String
  y : JSNum
  x : JSNum
  height : JSNum
deriving DecidableEq, Repr

/-- `item.height || 10`: the raw height (absent = `none`) defaulted through
JS `||`, which replaces exactly the falsy values (undefined, NaN, 0). -/
def defHeight (raw : Option JSNum) : JSNum :=
  match raw with
  | none => JSNum.fin 10
  | some v => if v.falsy then JSNum.fin 10 else v

/-- The `items.map` step of the source: build a `TextItem` from the raw
string, coordinates, and possibly-missing height. -/
def mkItem (str : String) (y x : JSNum) (rawHeight : Option JSNum) : TextItem :=
  ⟨str, y, x, defHeight rawHeight⟩

/-- The sort comparator `(a, b) => b.y - a.y || a.x - b.x`:
if `b.y - a.y` is falsy (0 or NaN), fall back to `a.x - b.x`. -/
def cmpItems (a b : TextItem) : JSNum :=
  let d := JSNum.sub b.y a.y
  if d.falsy then JSNum.sub a.x b.x else d

/-- Stable insertion into a sorted list: `x` is placed before the first
element `y` with comparator value `< 0`, matching the order
`Array.prototype.sort` produces for a consistent comparator. -/
def insertItem (x : TextItem) : List TextItem → List TextItem
  | [] => [x]
  | y :: ys => if (cmpItems x y).ltZero then x :: y :: ys else y :: insertItem x ys

/-- `items.sort((a, b) => b.y - a.y || a.x - b.x)` as a stable sort. -/
def sortItems (items : List TextItem) : List TextItem :=
  items.foldl (fun acc x => insertItem x acc) []

/-- The mutable carry-state of the per-page walk: the accumulated page
HTML, the `lastY` marker (initialised to `-1`), and the open paragraph
buffer. -/
structure WalkState where
  pageHtml : String
  lastY : JSNum
  currentParagraph : String
deriving DecidableEq, Repr

/-- Flushing the paragraph buffer:
`if (currentParagraph.trim().length > 0) pageHtml += <p>…</p>`. -/
def flushP (p : String) : String :=
  if 0 < (jsTrim p).length then "<p>" ++ jsTrim p ++ "</p>" else ""

/-- Appending a fragment to the open buffer, inserting a single space when
the buffer does not end with one and the fragment does not start with one. -/
def joinWithSpace (buf s : String) : String :=
  (if ¬ jsEndsWith buf " " ∧ ¬ jsStartsWith s " " then buf ++ " " else buf) ++ s

/-- One iteration of the `for (const item of items)` loop. -/
def stepItem (st : WalkState) (it : TextItem) : WalkState :=
  if (JSNum.seq st.lastY (JSNum.fin (-1))) then
    { st with currentParagraph := st.currentParagraph ++ it.str, lastY := it.y }
  else
    let diffY := JSNum.abs (JSNum.sub it.y st.lastY)
    if JSNum.gt diffY (JSNum.mul it.height (JSNum.fin (3 / 2))) then
      { pageHtml := st.pageHtml ++ flushP st.currentParagraph,
        lastY := it.y,
        currentParagraph := it.str }
    else
      { st with currentParagraph := joinWithSpace st.currentParagraph it.str,
                lastY := it.y }

/-- The initial walk state: `pageHtml = ""`, `lastY = -1`, empty buffer. -/
def initState : WalkState := ⟨"", JSNum.fin (-1), ""⟩

/-- The walk over an already-sorted item list, including the final flush. -/
def walkItems (items : List TextItem) : String :=
  let st := items.foldl stepItem initState
  st.pageHtml ++ flushP st.currentParagraph

/-- Per-page reconstruction: sort, walk, flush. -/
def reconstructPage (items : List TextItem) : String :=
  walkItems (sortItems items)

/-- The page container added when a page produced any text:
`<div class="page-content">…</div><hr class="page-break"/>`. -/
def pageWrap (pageHtml : String) : String :=
  if 0 < pageHtml.length then
    "<div class=\"page-content\">" ++ pageHtml ++ "</div><hr class=\"page-break\"/>"
  else ""

/-! ## Format Normalizer dispatch (geminiService.ts, convertLocalFile) -/

/-- First dispatch test: `fileType === 'text/html' || fileName.endsWith('.html')
|| fileName.endsWith('.htm')` (with `fileName` already lower-cased). -/
def isHtmlInput (fileType nameLower : String) : Bool :=
  fileType == "text/html" || jsEndsWith nameLower ".html" || jsEndsWith nameLower ".htm"

/-- Second dispatch test: OOXML media type or `.docx` extension. -/
def isDocxInput (fileType nameLower : String) : Bool :=
  fileType == "application/vnd.openxmlformats-officedocument.wordprocessingml.document"
    || jsEndsWith nameLower ".docx"

/-- Third dispatch test: `application/pdf` media type or `.pdf` extension. -/
def isPdfInput (fileType nameLower : String) : Bool :=
  fileType == "application/pdf" || jsEndsWith nameLower ".pdf"

/-- The three extraction routes of `convertLocalFile`. -/
inductive ConvRoute where
  | html : ConvRoute
  | docx : ConvRoute
  | pdf : ConvRoute
deriving DecidableEq, Repr

/-- The dispatch of `convertLocalFile` (first match wins); `none` means the
`Unsupported file type` branch is reached. -/
def classifyInput (fileType fileName : String) : Option ConvRoute :=
  let nameLower := jsToLower fileName
  if isHtmlInput fileType nameLower then some ConvRoute.html
  else if isDocxInput fileType nameLower then some ConvRoute.docx
  else if isPdfInput fileType nameLower then some ConvRoute.pdf
  else none

/-- The message of the error surfaced for an unsupported input: the inner
`"Unsupported file type for offline conversion."` wrapped by the catch
block's `Failed to convert locally: ${error.message}`. -/
def unsupportedMessage : String :=
  "Failed to convert locally: Unsupported file type for offline conversion."

/-- The error (if any) `convertLocalFile` throws purely from dispatch:
`some message` when no route matches, `none` otherwise. -/
def convertLocalFileError (fileType fileName : String) : Option String :=
  match classifyInput fileType fileName with
  | none => some unsupportedMessage
  | some _ => none

/-- The HTML branch `return textData || ""`: JS `||` yields `""` when
`textData` is undefined or the empty string. -/
def htmlPassthrough (textData : Option String) : String :=
  match textData with
  | none => ""
  | some s => if s == "" then "" else s

/-- Whether `needle` occurs as a contiguous substring of `hay`. -/
def hasSubList (needle : List Char) : List Char → Bool
  | [] => startsList needle []
  | c :: cs => startsList needle (c :: cs) || hasSubList needle cs

/-- String-level substring containment, used to state whether an error
message "names" a media type or extension. -/
def containsSub (needle hay : String) : Bool :=
  hasSubList needle.toList hay.toList

/-! ## EPUB Packager (fileHelpers.ts, createEpubBlob) -/

/-- One entry of the produced zip archive: path, textual content, and the
explicit compression option (`some "STORE"` only for `mimetype`). -/
structure ZipEntry where
  path : String
  data : String
  comp : Option String
deriving DecidableEq, Repr

/-- `'urn:uuid:' + crypto.randomUUID()`, with the random part a parameter. -/
def urnUuid (u : String) : String := "urn:uuid:" ++ u

/-- `META-INF/container.xml`, verbatim from the source template. -/
def containerXml : String :=
  "<?xml version=\"1.0\"?>\n<container version=\"1.0\" xmlns=\"urn:oasis:names:tc:opendocument:xmlns:container\">\n   <rootfiles>\n      <rootfile full-path=\"OEBPS/content.opf\" media-type=\"application/oebps-package+xml\"/>\n   </rootfiles>\n</container>"

/-- `OEBPS/style.css`, verbatim from the source template. -/
def epubCss : String :=
  "\n    body \x7b font-family: serif; line-height: 1.5; margin: 5%; \x7d\n    p \x7b margin-bottom: 1em; text-indent: 0; \x7d\n    h1, h2, h3 \x7b font-family: sans-serif; margin-top: 1.5em; page-break-after: avoid; \x7d\n    img \x7b max-width: 100%; height: auto; \x7d\n  "

/-- The fixed text of the XHTML template before the first `${title}`. -/
def xhtmlA : String :=
  "<?xml version=\"1.0\" encoding=\"utf-8\"?>\n<!DOCTYPE html PUBLIC \"-//W3C//DTD XHTML 1.1//EN\" \"http://www.w3.org/TR/xhtml11/DTD/xhtml11.dtd\">\n<html xmlns=\"http://www.w3.org/1999/xhtml\">\n<head>\n  <title>"

/-- The fixed XHTML text between `${title}` and the second `${title}`. -/
def xhtmlB : String :=
  "</title>\n  <link rel=\"stylesheet\" type=\"text/css\" href=\"style.css\"/>\n</head>\n<body>\n  <h1>"

/-- The fixed XHTML text between the second `${title}` and `${htmlContent}`. -/
def xhtmlC : String := "</h1>\n  "

/-- The fixed XHTML text after `${htmlContent}`. -/
def xhtmlD : String := "\n</body>\n</html>"

/-- `OEBPS/content.xhtml` built from the source template. -/
def xhtmlContent (title htmlContent : String) : String :=
  xhtmlA ++ title ++ xhtmlB ++ title ++ xhtmlC ++ htmlContent ++ xhtmlD

/-- The fixed OPF text before `${title}`. -/
def opfA : String :=
  "<?xml version=\"1.0\" encoding=\"UTF-8\"?>\n<package xmlns=\"http://www.idpf.org/2007/opf\" unique-identifier=\"BookID\" version=\"2.0\">\n   <metadata xmlns:dc=\"http://purl.org/dc/elements/1.1/\" xmlns:opf=\"http://www.idpf.org/2007/opf\">\n      <dc:title>"

/-- The fixed OPF text between `${title}` and `${uuid}`; it ends with the
package-identifier opening tag, so what follows it is the identifier value. -/
def opfB : String :=
  "</dc:title>\n      <dc:language>en</dc:language>\n      <dc:identifier id=\"BookID\" opf:scheme=\"UUID\">"

/-- The fixed OPF text after `${uuid}`. -/
def opfC : String :=
  "</dc:identifier>\n      <dc:creator>Offline Converter</dc:creator>\n   </metadata>\n   <manifest>\n      <item id=\"ncx\" href=\"toc.ncx\" media-type=\"application/x-dtbncx+xml\"/>\n      <item id=\"style\" href=\"style.css\" media-type=\"text/css\"/>\n      <item id=\"content\" href=\"content.xhtml\" media-type=\"application/xhtml+xml\"/>\n   </manifest>\n   <spine toc=\"ncx\">\n      <itemref idref=\"content\"/>\n   </spine>\n</package>"

/-- `OEBPS/content.opf` built from the source template. -/
def contentOpf (title uuid : String) : String :=
  opfA ++ title ++ opfB ++ uuid ++ opfC

/-- The fixed NCX text before `${uuid}`; it ends with the `dtb:uid`
`content="` attribute opener, so what follows it is the uid value. -/
def ncxA : String :=
  "<?xml version=\"1.0\" encoding=\"UTF-8\"?>\n<ncx xmlns=\"http://www.daisy.org/z3986/2005/ncx/\" version=\"2005-1\">\n   <head>\n      <meta name=\"dtb:uid\" content=\""

/-- The fixed NCX text between `${uuid}` and `${title}`. -/
def ncxB : String :=
  "\"/>\n      <meta name=\"dtb:depth\" content=\"1\"/>\n      <meta name=\"dtb:totalPageCount\" content=\"0\"/>\n      <meta name=\"dtb:maxPageNumber\" content=\"0\"/>\n   </head>\n   <docTitle>\n      <text>"

/-- The fixed NCX text after `${title}`. -/
def ncxC : String :=
  "</text>\n   </docTitle>\n   <navMap>\n      <navPoint id=\"navPoint-1\" playOrder=\"1\">\n         <navLabel>\n            <text>Start</text>\n         </navLabel>\n         <content src=\"content.xhtml\"/>\n      </navPoint>\n   </navMap>\n</ncx>"

/-- `OEBPS/toc.ncx` built from the source template. -/
def tocNcx (title uuid : String) : String :=
  ncxA ++ uuid ++ ncxB ++ title ++ ncxC

/-- The archive `createEpubBlob` assembles, in insertion order; `u` stands
for the `crypto.randomUUID()` value of the invocation, used once to form
the `uuid` passed to both the OPF and the NCX templates. -/
def createEpubEntries (htmlContent title u : String) : List ZipEntry :=
  let uuid := urnUuid u
  [⟨"mimetype", "application/epub+zip", some "STORE"⟩,
   ⟨"META-INF/container.xml", containerXml, none⟩,
   ⟨"OEBPS/style.css", epubCss, none⟩,
   ⟨"OEBPS/content.xhtml", xhtmlContent title htmlContent, none⟩,
   ⟨"OEBPS/content.opf", contentOpf title uuid, none⟩,
   ⟨"OEBPS/toc.ncx", tocNcx title uuid, none⟩]

/-! ## MOBI Binary Encoder (fileHelpers.ts, createMobiBlob) -/

/-- The byte buffer, as a map from offset to byte value; unwritten
positions are 0, matching a zero-initialised `ArrayBuffer`. -/
def Mem : Type := Nat → Nat

/-- The zero-initialised buffer. -/
def emptyMem : Mem := fun _ => 0

/-- Write a run of bytes at `off`, leaving the rest of the buffer alone. -/
def wr (m : Mem) (off : Nat) (data : List Nat) : Mem :=
  fun i => if off ≤ i ∧ i < off + data.length then data.getD (i - off) 0 else m i

/-- The two big-endian bytes of a 16-bit value. -/
def be16 (v : Nat) : List Nat := [v / 256 % 256, v % 256]

/-- The four big-endian bytes of a 32-bit value. -/
def be32 (v : Nat) : List Nat :=
  [v / 16777216 % 256, v / 65536 % 256, v / 256 % 256, v % 256]

/-- `DataView.setUint16(off, v, false)`: big-endian, value reduced mod 2^16. -/
def setU16 (m : Mem) (off v : Nat) : Mem := wr m off (be16 (v % 65536))

/-- `DataView.setUint32(off, v, false)`: big-endian, value reduced mod 2^32. -/
def setU32 (m : Mem) (off v : Nat) : Mem := wr m off (be32 (v % 4294967296))

/-- The source's `writeString`: exactly `len` bytes at `off`, taking bytes
from `bytes` and zero-padding past its end. -/
def writeStr (m : Mem) (off : Nat) (bytes : List Nat) (len : Nat) : Mem :=
  wr m off ((List.range len).map fun i => bytes.getD i 0)

/-- UTF-8 bytes of an ASCII string (all source literals are ASCII, where
UTF-8 coincides with the code points). -/
def ascii (s : String) : List Nat := s.toList.map Char.toNat

/-- `PDB_HEADER_LEN` of the source. -/
def PDB_HEADER_LEN : Nat := 78

/-- `RECORD_INFO_LEN` of the source. -/
def RECORD_INFO_LEN : Nat := 8

/-- `PALMDOC_HEADER_LEN` of the source. -/
def PALMDOC_HEADER_LEN : Nat := 16

/-- `MOBI_HEADER_LEN` of the source. -/
def MOBI_HEADER_LEN : Nat := 232

/-- `EXTH_HEADER_LEN` of the source (no EXTH block). -/
def EXTH_HEADER_LEN : Nat := 0

/-- `RECORD_0_LEN = PALMDOC_HEADER_LEN + MOBI_HEADER_LEN + EXTH_HEADER_LEN`. -/
def RECORD_0_LEN : Nat := PALMDOC_HEADER_LEN + MOBI_HEADER_LEN + EXTH_HEADER_LEN

/-- `numRecords` of the source. -/
def numRecords : Nat := 2

/-- The first value of the source's layout cursor `currentOffset`, where
Record 0 is placed (also the source's `rec0Start`). -/
def rec0Start : Nat := PDB_HEADER_LEN + numRecords * RECORD_INFO_LEN

/-- The cursor after `currentOffset += RECORD_0_LEN`, where Record 1 is
placed (the source's `contentStart`). -/
def record1Start : Nat := rec0Start + RECORD_0_LEN

/-- The title-wrapped HTML document
`<html><head><title>T</title></head><body><h1>T</h1>HTML</body></html>`,
at the byte level (title and html supplied as their UTF-8 bytes). -/
def fullContent (htmlB titleB : List Nat) : List Nat :=
  ascii "<html><head><title>" ++ titleB ++ ascii "</title></head><body><h1>"
    ++ titleB ++ ascii "</h1>" ++ htmlB ++ ascii "</body></html>"

/-- `totalLen = PDB_HEADER_LEN + numRecords*RECORD_INFO_LEN + RECORD_0_LEN
+ contentLen`: the size of the produced buffer. -/
def mobiTotalLen (htmlB titleB : List Nat) : Nat :=
  PDB_HEADER_LEN + numRecords * RECORD_INFO_LEN + RECORD_0_LEN
    + (fullContent htmlB titleB).length

/-- The buffer `createMobiBlob` fills, write for write in source order;
`now` is the Palm-epoch timestamp value. -/
def mobiMem (htmlB titleB : List Nat) (now : Nat) : Mem :=
  let contentB := fullContent htmlB titleB
  let contentLen := contentB.length
  let m := emptyMem
  let m := writeStr m 0 (titleB.take 31) 32
  let m := setU16 m 32 0
  let m := setU16 m 34 0
  let m := setU32 m 36 now
  let m := setU32 m 40 now
  let m := setU32 m 44 0
  let m := setU32 m 48 0
  let m := setU32 m 52 0
  let m := setU32 m 56 0
  let m := writeStr m 60 (ascii "BOOK") 4
  let m := writeStr m 64 (ascii "MOBI") 4
  let m := setU32 m 68 1
  let m := setU32 m 72 0
  let m := setU16 m 76 numRecords
  let m := setU32 m 78 rec0Start
  let m := setU32 m 82 0
  let m := setU32 m 86 record1Start
  let m := setU32 m 90 2
  let m := setU16 m rec0Start 1
  let m := setU16 m (rec0Start + 2) 0
  let m := setU32 m (rec0Start + 4) contentLen
  let m := setU16 m (rec0Start + 8) 1
  let m := setU16 m (rec0Start + 10) 4096
  let m := setU32 m (rec0Start + 12) 0
  let mobiStart := rec0Start + PALMDOC_HEADER_LEN
  let m := writeStr m mobiStart (ascii "MOBI") 4
  let m := setU32 m (mobiStart + 4) MOBI_HEADER_LEN
  let m := setU32 m (mobiStart + 8) 2
  let m := setU32 m (mobiStart + 12) 65001
  let m := setU32 m (mobiStart + 16) 123456789
  let m := setU32 m (mobiStart + 20) 6
  let m := setU32 m (mobiStart + 80) 0
  let m := setU32 m (mobiStart + 84) 0
  let m := setU32 m (mobiStart + 88) 0
  let m := setU16 m (mobiStart + 128) 0
  wr m record1Start contentB

/-- Read a big-endian 16-bit value back from the buffer. -/
def readU16 (m : Mem) (off : Nat) : Nat := m off * 256 + m (off + 1)

/-- Read a big-endian 32-bit value back from the buffer. -/
def readU32 (m : Mem) (off : Nat) : Nat :=
  m off * 16777216 + m (off + 1) * 65536 + m (off + 2) * 256 + m (off + 3)

/-! ## Helper lemmas -/

/-- Subtraction of finite JS numbers. -/
lemma sub_fin (p q : ℚ) : JSNum.sub (JSNum.fin p) (JSNum.fin q) = JSNum.fin (p - q) := rfl

/-- Absolute value of a finite JS number. -/
lemma abs_fin (q : ℚ) : JSNum.abs (JSNum.fin q) = JSNum.fin |q| := rfl

/-- Product of finite JS numbers. -/
lemma mul_fin (p q : ℚ) : JSNum.mul (JSNum.fin p) (JSNum.fin q) = JSNum.fin (p * q) := rfl

/-- Strict equality of distinct finite JS numbers is false. -/
lemma seq_fin_false {p q : ℚ} (h : p ≠ q) :
    JSNum.seq (JSNum.fin p) (JSNum.fin q) = false := by
  simp [JSNum.seq, h]

/-- `>` on finite JS numbers, true case. -/
lemma gt_fin_of_lt {p q : ℚ} (h : q < p) :
    JSNum.gt (JSNum.fin p) (JSNum.fin q) = true := by
  simp [JSNum.gt, h]

/-- `>` on finite JS numbers, false case. -/
lemma gt_fin_of_ge {p q : ℚ} (h : ¬ q < p) :
    JSNum.gt (JSNum.fin p) (JSNum.fin q) = false := by
  simp [JSNum.gt, h]

/-- Appending to the empty string. -/
lemma str_nil_append (s : String) : "" ++ s = s := rfl

/-- The first-item branch of the walk: `lastY === -1` seeds the buffer with
the fragment's text, with no space insertion and no flush. -/
lemma stepItem_first (ph cp : String) (ly : JSNum) (s : String) (y x hgt : JSNum)
    (h : JSNum.seq ly (JSNum.fin (-1)) = true) :
    stepItem ⟨ph, ly, cp⟩ ⟨s, y, x, hgt⟩ = ⟨ph, y, cp ++ s⟩ := by
  simp [stepItem, h]

/-- The new-paragraph branch of the walk: the open buffer is flushed and the
fragment's text starts a new buffer. -/
lemma stepItem_break (ph cp : String) (ly : JSNum) (s : String) (y x hgt : JSNum)
    (h1 : JSNum.seq ly (JSNum.fin (-1)) = false)
    (h2 : JSNum.gt (JSNum.abs (JSNum.sub y ly)) (JSNum.mul hgt (JSNum.fin (3 / 2))) = true) :
    stepItem ⟨ph, ly, cp⟩ ⟨s, y, x, hgt⟩ = ⟨ph ++ flushP cp, y, s⟩ := by
  simp [stepItem, h1, h2]

/-- The same-paragraph branch of the walk: the fragment's text is appended
to the buffer through `joinWithSpace`, with no flush. -/
lemma stepItem_merge (ph cp : String) (ly : JSNum) (s : String) (y x hgt : JSNum)
    (h1 : JSNum.seq ly (JSNum.fin (-1)) = false)
    (h2 : JSNum.gt (JSNum.abs (JSNum.sub y ly)) (JSNum.mul hgt (JSNum.fin (3 / 2))) = false) :
    stepItem ⟨ph, ly, cp⟩ ⟨s, y, x, hgt⟩ = ⟨ph, y, joinWithSpace cp s⟩ := by
  simp [stepItem, h1, h2]

/-- Reading a written run back out of a MOBI buffer. -/
lemma wr_in (m : Mem) (off : Nat) (data : List Nat) (x : Nat)
    (h1 : off ≤ x) (h2 : x < off + data.length) :
    wr m off data x = data.getD (x - off) 0 := by
  simp [wr, h1, h2]

/-! ## Claim theorems -/

/-- Claim C9: the three-fragment page {Hello, y 700, h 12}, {World, y 699,
h 12}, {New para, y 650, h 12} reconstructs (after sorting by descending y,
ascending x) to exactly `<p>Hello World</p><p>New para</p>`. -/
theorem c9_three_fragment_scenario :
    reconstructPage
      [mkItem "Hello" (JSNum.fin 700) (JSNum.fin 0) (some (JSNum.fin 12)),
       mkItem "World" (JSNum.fin 699) (JSNum.fin 0) (some (JSNum.fin 12)),
       mkItem "New para" (JSNum.fin 650) (JSNum.fin 0) (some (JSNum.fin 12))]
      = "<p>Hello World</p><p>New para</p>" := by
  norm_num [reconstructPage, sortItems, insertItem, cmpItems, walkItems, stepItem,
    initState, mkItem, defHeight, JSNum.sub, JSNum.abs, JSNum.mul, JSNum.gt,
    JSNum.seq, JSNum.falsy, JSNum.ltZero, List.foldl, flushP, joinWithSpace,
    jsTrim, jsEndsWith, jsStartsWith, startsList, jsIsWs]
  decide

/-- Claim C10: the `lastY` "unset" marker is the real value `-1`; when the
first fragment's y is exactly `-1`, the second fragment is also handled by
the first-fragment branch — its text is appended directly to the buffer
with no space insertion and no gap-threshold check, whatever its y, x and
height are. -/
theorem c10_lastY_sentinel_collision (f1 f2 : TextItem) (rest : List TextItem)
    (hy : f1.y = JSNum.fin (-1)) :
    List.foldl stepItem initState (f1 :: f2 :: rest)
      = List.foldl stepItem ⟨"", f2.y, f1.str ++ f2.str⟩ rest := by
  obtain ⟨s1, y1, x1, g1⟩ := f1
  obtain ⟨s2, y2, x2, g2⟩ := f2
  simp only at hy
  subst hy
  rw [List.foldl_cons, List.foldl_cons, initState,
    stepItem_first "" "" (JSNum.fin (-1)) s1 (JSNum.fin (-1)) x1 g1 (by decide),
    stepItem_first "" ("" ++ s1) (JSNum.fin (-1)) s2 y2 x2 g2 (by decide),
    str_nil_append]

/-- Witness for C10 at a concrete pair of fragments. -/
theorem c10_lastY_sentinel_collision_witness :
    List.foldl stepItem initState
      [⟨"abc", JSNum.fin (-1), JSNum.fin 0, JSNum.fin 12⟩,
       ⟨"xyz", JSNum.fin 500, JSNum.fin 7, JSNum.fin 12⟩]
      = ⟨"", JSNum.fin 500, "abc" ++ "xyz"⟩ :=
  c10_lastY_sentinel_collision
    ⟨"abc", JSNum.fin (-1), JSNum.fin 0, JSNum.fin 12⟩
    ⟨"xyz", JSNum.fin 500, JSNum.fin 7, JSNum.fin 12⟩ [] rfl

/-- Counterexample to claim C2: a negative reported height (here `-5`) is
truthy in JS, so `item.height || 10` keeps it instead of defaulting to 10. -/
theorem c2_negative_height_counterexample :
    defHeight (some (JSNum.fin (-5))) = JSNum.fin (-5) ∧
    JSNum.fin (-5) ≠ JSNum.fin 10 := by decide

/-- Claim C2 (amended): the height used in the gap-threshold comparison
defaults to 10 exactly when the reported height is unknown (absent), NaN,
or zero; every nonzero reported height — negative ones included — and the
infinities are kept as-is. -/
theorem c2_height_default_semantics :
    defHeight none = JSNum.fin 10 ∧
    defHeight (some JSNum.nan) = JSNum.fin 10 ∧
    defHeight (some (JSNum.fin 0)) = JSNum.fin 10 ∧
    (∀ q : ℚ, q ≠ 0 → defHeight (some (JSNum.fin q)) = JSNum.fin q) ∧
    (∀ b : Bool, defHeight (some (JSNum.inf b)) = JSNum.inf b) := by
  refine ⟨rfl, rfl, by decide, ?_, fun b => rfl⟩
  intro q hq
  simp [defHeight, JSNum.falsy, hq]

/-- Witness for C2 (amended) at a concrete nonzero height. -/
theorem c2_height_default_semantics_witness :
    defHeight (some (JSNum.fin 7)) = JSNum.fin 7 :=
  c2_height_default_semantics.2.2.2.1 7 (by norm_num)

/-- Counterexample to claim C6: for the unsupported input `image/png` /
`photo.png`, the error message is a fixed string that names neither the
media type nor the extension (it does not even contain "png"). -/
theorem c6_unsupported_message_counterexample :
    convertLocalFileError "image/png" "photo.png" = some unsupportedMessage ∧
    containsSub "image/png" unsupportedMessage = false ∧
    containsSub ".png" unsupportedMessage = false ∧
    containsSub "png" unsupportedMessage = false := by decide

/-- Claim C6 (amended): every input matching none of the HTML, DOCX and PDF
dispatch tests fails with the one fixed `Unsupported file type` message
(wrapped by the catch block), which does not mention the rejected media
type or extension. -/
theorem c6_unsupported_fixed_message (fileType fileName : String)
    (hnone : classifyInput fileType fileName = none) :
    convertLocalFileError fileType fileName = some unsupportedMessage ∧
    unsupportedMessage =
      "Failed to convert locally: Unsupported file type for offline conversion." := by
  refine ⟨?_, rfl⟩
  simp [convertLocalFileError, hnone]

/-- Witness for C6 (amended) at a concrete unsupported input. -/
theorem c6_unsupported_fixed_message_witness :
    convertLocalFileError "image/gif" "anim.gif" = some unsupportedMessage :=
  (c6_unsupported_fixed_message "image/gif" "anim.gif" (by decide)).1

/-- Counterexample to claim C7: for a zero-byte HTML input (the HTML branch
returns `""`) and the default title, the MOBI text record holds the 95
bytes of the title-wrapped HTML document, not zero bytes, so the buffer
size is 437, not the 342 bytes of the fixed headers alone. -/
theorem c7_zero_byte_html_counterexample :
    mobiTotalLen (ascii (htmlPassthrough (some ""))) (ascii "Converted E-Book") = 437 ∧
    (fullContent (ascii (htmlPassthrough (some ""))) (ascii "Converted E-Book")).length = 95 ∧
    PDB_HEADER_LEN + numRecords * RECORD_INFO_LEN + RECORD_0_LEN = 342 ∧
    (437 : Nat) ≠ 342 := by decide

/-- Claim C7 (amended): a zero-byte HTML input still yields the full
six-entry EPUB archive, and a MOBI buffer of the fixed 342 header bytes
plus the title-wrapped HTML document (63 wrapper bytes plus the title
twice), whose text record is therefore never zero-length. -/
theorem c7_zero_byte_html_outputs (titleB : List Nat) (ts u : String) :
    mobiTotalLen [] titleB = 342 + (fullContent [] titleB).length ∧
    (fullContent [] titleB).length = 63 + 2 * titleB.length ∧
    (createEpubEntries "" ts u).map ZipEntry.path =
      ["mimetype", "META-INF/container.xml", "OEBPS/style.css",
       "OEBPS/content.xhtml", "OEBPS/content.opf", "OEBPS/toc.ncx"] := by
  refine ⟨?_, ?_, rfl⟩
  · simp [mobiTotalLen, PDB_HEADER_LEN, numRecords, RECORD_INFO_LEN, RECORD_0_LEN,
      PALMDOC_HEADER_LEN, MOBI_HEADER_LEN, EXTH_HEADER_LEN]
  · have la : (ascii "<html><head><title>").length = 19 := by decide
    have lb : (ascii "</title></head><body><h1>").length = 25 := by decide
    have lc : (ascii "</h1>").length = 5 := by decide
    have ld : (ascii "</body></html>").length = 14 := by decide
    simp [fullContent, la, lb, lc, ld]
    ring

/-- Counterexample to claim C1: with the fragments {Hello, y 700} and
{World, y NaN}, the engine does not flush the open buffer before the
NaN-coordinate fragment; `NaN > height × 1.5` is false, so the fragment is
merged into the same paragraph and the page yields one `<p>` element. -/
theorem c1_nan_merged_counterexample :
    reconstructPage
      [mkItem "Hello" (JSNum.fin 700) (JSNum.fin 0) (some (JSNum.fin 12)),
       mkItem "World" JSNum.nan (JSNum.fin 1) (some (JSNum.fin 12))]
      = "<p>Hello World</p>" ∧
    ("<p>Hello World</p>" : String) ≠ "<p>Hello</p><p>World</p>" := by
  constructor
  · norm_num [reconstructPage, sortItems, insertItem, cmpItems, walkItems, stepItem,
      initState, mkItem, defHeight, JSNum.sub, JSNum.abs, JSNum.mul, JSNum.gt,
      JSNum.seq, JSNum.falsy, JSNum.ltZero, List.foldl, flushP, joinWithSpace,
      jsTrim, jsEndsWith, jsStartsWith, startsList, jsIsWs]
    decide
  · decide

/-- Claim C1 (amended): the engine is a total function (it cannot throw),
and a non-finite y coordinate splits by kind: after any non-first fragment,
a NaN y is treated as continuing the current paragraph (no flush, merged
through `joinWithSpace`), while an infinite y over a finite `lastY` and a
finite height forces a paragraph break (buffer flushed first). -/
theorem c1_nonfinite_fragment_behavior :
    (∀ (ph cp : String) (ly : JSNum) (s : String) (x hgt : JSNum),
      JSNum.seq ly (JSNum.fin (-1)) = false →
      stepItem ⟨ph, ly, cp⟩ ⟨s, JSNum.nan, x, hgt⟩
        = ⟨ph, JSNum.nan, joinWithSpace cp s⟩) ∧
    (∀ (ph cp : String) (q : ℚ) (s : String) (b : Bool) (x : JSNum) (h : ℚ),
      q ≠ -1 →
      stepItem ⟨ph, JSNum.fin q, cp⟩ ⟨s, JSNum.inf b, x, JSNum.fin h⟩
        = ⟨ph ++ flushP cp, JSNum.inf b, s⟩) := by
  constructor
  · intro ph cp ly s x hgt h1
    refine stepItem_merge ph cp ly s JSNum.nan x hgt h1 ?_
    cases ly <;> cases hgt <;> simp [JSNum.sub, JSNum.abs, JSNum.mul, JSNum.gt]
  · intro ph cp q s b x h hq
    refine stepItem_break ph cp (JSNum.fin q) s (JSNum.inf b) x (JSNum.fin h)
      (seq_fin_false hq) ?_
    cases b <;> simp [JSNum.sub, JSNum.abs, JSNum.mul, JSNum.gt]

/-- Witness for C1 (amended) at concrete NaN and Infinity fragments. -/
theorem c1_nonfinite_fragment_behavior_witness :
    stepItem ⟨"", JSNum.fin 700, "Hello"⟩ ⟨"World", JSNum.nan, JSNum.fin 1, JSNum.fin 12⟩
      = ⟨"", JSNum.nan, joinWithSpace "Hello" "World"⟩ ∧
    stepItem ⟨"", JSNum.fin 700, "Hello"⟩ ⟨"New", JSNum.inf true, JSNum.fin 0, JSNum.fin 12⟩
      = ⟨"" ++ flushP "Hello", JSNum.inf true, "New"⟩ :=
  ⟨c1_nonfinite_fragment_behavior.1 "" "Hello" (JSNum.fin 700) "World" (JSNum.fin 1)
      (JSNum.fin 12) (seq_fin_false (by norm_num)),
   c1_nonfinite_fragment_behavior.2 "" "Hello" 700 "New" true (JSNum.fin 0) 12
      (by norm_num)⟩

/-- Claim C3: for two consecutive sorted fragments over finite coordinates
(`lastY` not colliding with the `-1` marker), a vertical distance exactly
equal to `height × 1.5` takes the merge branch — one paragraph — and a
distance strictly above it takes the split branch — the first paragraph is
flushed and the second fragment starts a new one; stated both for a single
walk step from an arbitrary state and for the two-fragment page. -/
theorem c3_gap_threshold_boundary (s1 s2 : String) (ya yb xa xb ha hb : ℚ)
    (hy : ya ≠ -1) :
    (|yb - ya| = hb * (3 / 2) →
      (∀ ph cp : String,
        stepItem ⟨ph, JSNum.fin ya, cp⟩ ⟨s2, JSNum.fin yb, JSNum.fin xb, JSNum.fin hb⟩
          = ⟨ph, JSNum.fin yb, joinWithSpace cp s2⟩) ∧
      walkItems [⟨s1, JSNum.fin ya, JSNum.fin xa, JSNum.fin ha⟩,
                 ⟨s2, JSNum.fin yb, JSNum.fin xb, JSNum.fin hb⟩]
        = flushP (joinWithSpace s1 s2)) ∧
    (hb * (3 / 2) < |yb - ya| →
      (∀ ph cp : String,
        stepItem ⟨ph, JSNum.fin ya, cp⟩ ⟨s2, JSNum.fin yb, JSNum.fin xb, JSNum.fin hb⟩
          = ⟨ph ++ flushP cp, JSNum.fin yb, s2⟩) ∧
      walkItems [⟨s1, JSNum.fin ya, JSNum.fin xa, JSNum.fin ha⟩,
                 ⟨s2, JSNum.fin yb, JSNum.fin xb, JSNum.fin hb⟩]
        = flushP s1 ++ flushP s2) := by
  have hfirst : stepItem initState ⟨s1, JSNum.fin ya, JSNum.fin xa, JSNum.fin ha⟩
      = ⟨"", JSNum.fin ya, s1⟩ := by
    rw [initState, stepItem_first "" "" (JSNum.fin (-1)) s1 (JSNum.fin ya)
      (JSNum.fin xa) (JSNum.fin ha) (by decide), str_nil_append]
  constructor
  · intro heq
    have hg : JSNum.gt (JSNum.abs (JSNum.sub (JSNum.fin yb) (JSNum.fin ya)))
        (JSNum.mul (JSNum.fin hb) (JSNum.fin (3 / 2))) = false := by
      rw [sub_fin, abs_fin, mul_fin, heq]
      exact gt_fin_of_ge (lt_irrefl _)
    have hstep : ∀ ph cp : String,
        stepItem ⟨ph, JSNum.fin ya, cp⟩ ⟨s2, JSNum.fin yb, JSNum.fin xb, JSNum.fin hb⟩
          = ⟨ph, JSNum.fin yb, joinWithSpace cp s2⟩ := fun ph cp =>
      stepItem_merge ph cp (JSNum.fin ya) s2 (JSNum.fin yb) (JSNum.fin xb)
        (JSNum.fin hb) (seq_fin_false hy) hg
    refine ⟨hstep, ?_⟩
    rw [walkItems, List.foldl_cons, List.foldl_cons, hfirst, hstep, List.foldl_nil,
      str_nil_append]
  · intro hlt
    have hg : JSNum.gt (JSNum.abs (JSNum.sub (JSNum.fin yb) (JSNum.fin ya)))
        (JSNum.mul (JSNum.fin hb) (JSNum.fin (3 / 2))) = true := by
      rw [sub_fin, abs_fin, mul_fin]
      exact gt_fin_of_lt hlt
    have hstep : ∀ ph cp : String,
        stepItem ⟨ph, JSNum.fin ya, cp⟩ ⟨s2, JSNum.fin yb, JSNum.fin xb, JSNum.fin hb⟩
          = ⟨ph ++ flushP cp, JSNum.fin yb, s2⟩ := fun ph cp =>
      stepItem_break ph cp (JSNum.fin ya) s2 (JSNum.fin yb) (JSNum.fin xb)
        (JSNum.fin hb) (seq_fin_false hy) hg
    refine ⟨hstep, ?_⟩
    rw [walkItems, List.foldl_cons, List.foldl_cons, hfirst, hstep, List.foldl_nil,
      str_nil_append]

/-- Witness for C3 at concrete boundary and above-boundary distances
(heights 12, distances 18 = 12 × 1.5 and 19 > 18). -/
theorem c3_gap_threshold_boundary_witness :
    walkItems [⟨"aa", JSNum.fin 100, JSNum.fin 0, JSNum.fin 5⟩,
               ⟨"bb", JSNum.fin 82, JSNum.fin 0, JSNum.fin 12⟩]
      = flushP (joinWithSpace "aa" "bb") ∧
    walkItems [⟨"aa", JSNum.fin 100, JSNum.fin 0, JSNum.fin 5⟩,
               ⟨"cc", JSNum.fin 81, JSNum.fin 0, JSNum.fin 12⟩]
      = flushP "aa" ++ flushP "cc" :=
  ⟨((c3_gap_threshold_boundary "aa" "bb" 100 82 0 0 5 12 (by norm_num)).1
      (by norm_num)).2,
   ((c3_gap_threshold_boundary "aa" "cc" 100 81 0 0 5 12 (by norm_num)).2
      (by norm_num)).2⟩

/-- Claim C8: in the same-paragraph branch, a single space is inserted
between the buffer and the fragment text exactly when the buffer does not
end with a space and the fragment does not start with one; in particular
"hello"+"world" gives "hello world" and "hello "+"world" also gives
"hello world". -/
theorem c8_word_spacing :
    (∀ buf s : String,
      joinWithSpace buf s = buf ++ " " ++ s ↔
        ¬ jsEndsWith buf " " ∧ ¬ jsStartsWith s " ") ∧
    (∀ buf s : String,
      (jsEndsWith buf " " ∨ jsStartsWith s " ") → joinWithSpace buf s = buf ++ s) ∧
    (∀ (ph cp : String) (ly : JSNum) (s : String) (y x hgt : JSNum),
      JSNum.seq ly (JSNum.fin (-1)) = false →
      JSNum.gt (JSNum.abs (JSNum.sub y ly)) (JSNum.mul hgt (JSNum.fin (3 / 2))) = false →
      stepItem ⟨ph, ly, cp⟩ ⟨s, y, x, hgt⟩ = ⟨ph, y, joinWithSpace cp s⟩) ∧
    joinWithSpace "hello" "world" = "hello world" ∧
    joinWithSpace "hello " "world" = "hello world" := by
  refine ⟨?_, ?_, stepItem_merge, by decide, by decide⟩
  · intro buf s
    by_cases hc : ¬ jsEndsWith buf " " ∧ ¬ jsStartsWith s " "
    · simp [joinWithSpace, hc]
    · rw [joinWithSpace, if_neg hc]
      constructor
      · intro heq
        have hlen := congrArg String.length heq
        simp [String.length_append] at hlen
        exact absurd hlen (by decide)
      · intro hcond
        exact absurd hcond hc
  · intro buf s hor
    rw [joinWithSpace, if_neg (by tauto)]

/-- Witness for C8 at a concrete merge step. -/
theorem c8_word_spacing_witness :
    joinWithSpace "ab" "cd" = "ab" ++ " " ++ "cd" ∧
    stepItem ⟨"", JSNum.fin 100, "ab"⟩ ⟨"cd", JSNum.fin 99, JSNum.fin 0, JSNum.fin 12⟩
      = ⟨"", JSNum.fin 99, joinWithSpace "ab" "cd"⟩ :=
  ⟨(c8_word_spacing.1 "ab" "cd").mpr (by decide),
   c8_word_spacing.2.2.1 "" "ab" (JSNum.fin 100) "cd" (JSNum.fin 99) (JSNum.fin 0)
     (JSNum.fin 12) (seq_fin_false (by norm_num))
     (by rw [sub_fin, abs_fin, mul_fin]; exact gt_fin_of_ge (by norm_num))⟩

/-- Claim C4: for every HTML input, title and timestamp, the record-info
table of the MOBI buffer stores exactly the real record start positions:
the 32-bit value at offset 78 is 94 (= 78-byte PDB header + 2×8-byte
record-info entries), where Record 0's PalmDOC header really starts (its
compression field 1 is read back there), and the value at offset 86 is 342
(= 94 + 16 + 232), where Record 1's text bytes really are. -/
theorem c4_record_info_offsets (htmlB titleB : List Nat) (now : Nat) :
    readU32 (mobiMem htmlB titleB now) 78 = rec0Start ∧
    rec0Start = 94 ∧
    readU32 (mobiMem htmlB titleB now) 86 = record1Start ∧
    record1Start = 342 ∧
    readU16 (mobiMem htmlB titleB now) rec0Start = 1 ∧
    (∀ i, i < (fullContent htmlB titleB).length →
      mobiMem htmlB titleB now (record1Start + i) = (fullContent htmlB titleB).getD i 0) := by
  refine ⟨?_, by decide, ?_, by decide, ?_, ?_⟩
  · simp [mobiMem, readU32, setU32, setU16, writeStr, wr, be32, be16, rec0Start,
      record1Start, PDB_HEADER_LEN, RECORD_INFO_LEN, numRecords, RECORD_0_LEN,
      PALMDOC_HEADER_LEN, MOBI_HEADER_LEN, EXTH_HEADER_LEN, emptyMem, ascii]
  · simp [mobiMem, readU32, setU32, setU16, writeStr, wr, be32, be16, rec0Start,
      record1Start, PDB_HEADER_LEN, RECORD_INFO_LEN, numRecords, RECORD_0_LEN,
      PALMDOC_HEADER_LEN, MOBI_HEADER_LEN, EXTH_HEADER_LEN, emptyMem, ascii]
  · simp [mobiMem, readU16, setU32, setU16, writeStr, wr, be32, be16, rec0Start,
      record1Start, PDB_HEADER_LEN, RECORD_INFO_LEN, numRecords, RECORD_0_LEN,
      PALMDOC_HEADER_LEN, MOBI_HEADER_LEN, EXTH_HEADER_LEN, emptyMem, ascii]
  · intro i hi
    unfold mobiMem
    rw [wr_in _ _ _ _ (Nat.le_add_right _ _) (Nat.add_lt_add_left hi _)]
    simp

/-- Witness for C4: the text record of a concrete buffer starts with the
first byte of the title-wrapped document. -/
theorem c4_record_info_offsets_witness :
    mobiMem (ascii "<p>x</p>") (ascii "T") 0 (record1Start + 0)
      = (fullContent (ascii "<p>x</p>") (ascii "T")).getD 0 0 :=
  (c4_record_info_offsets (ascii "<p>x</p>") (ascii "T") 0).2.2.2.2.2 0 (by decide)

/-- Claim C5: the archive built by the EPUB packager has the uncompressed
`mimetype` entry with the literal bytes `application/epub+zip` as its first
entry, and within one invocation the same `urn:uuid:` string (built once
from the invocation's `crypto.randomUUID()` value `u`) is embedded in the
OPF's package identifier (directly after the `<dc:identifier ...
opf:scheme="UUID">` tag that `opfB` ends with) and in the NCX's `dtb:uid`
metadata (directly after the `content="` opener that `ncxA` ends with). -/
theorem c5_epub_mimetype_and_uuid (h t u : String) :
    (createEpubEntries h t u).head? =
      some ⟨"mimetype", "application/epub+zip", some "STORE"⟩ ∧
    (createEpubEntries h t u).find? (fun e => e.path == "OEBPS/content.opf") =
      some ⟨"OEBPS/content.opf", opfA ++ t ++ opfB ++ urnUuid u ++ opfC, none⟩ ∧
    (createEpubEntries h t u).find? (fun e => e.path == "OEBPS/toc.ncx") =
      some ⟨"OEBPS/toc.ncx", ncxA ++ urnUuid u ++ ncxB ++ t ++ ncxC, none⟩ :=
  ⟨rfl, rfl, rfl⟩
